import Mathlib

/-!
Shallow embedding of the marketing_calc financial computation engine and the
per-user sequential numbering protocol, translated from the TypeScript source
in `src/server/src` (module `utils/totals` re-exported through
`middleware/auth.ts` in the flattened sources, and the receipt/invoice
controllers).  JavaScript numbers are modelled by exact rationals `ℚ`;
a possibly non-finite JavaScript number (`NaN`, `±Infinity`, `undefined`)
is modelled as `Option ℚ` with `none` standing for a value rejected by
`Number.isFinite`.
-/

namespace MarketingCalc

/-- Currency enumeration, from `z.enum(['NGN','USD'])`. -/
inductive Currency where
  | NGN
  | USD
deriving DecidableEq, Repr

/-- Allocation enumeration, from `z.enum(['per-unit','per-order'])`. -/
inductive Allocation where
  | perUnit
  | perOrder
deriving DecidableEq, Repr

/-- Kind of an extra cost, from `z.enum(['amount','percent'])`. -/
inductive ExtraKind where
  | amount
  | percent
deriving DecidableEq, Repr

/-- ExtraCost record, from the `ExtraCost` zod schema.  Optional numeric
fields are `Option ℚ` (`none` = absent or non-finite). -/
structure ExtraCost where
  id : String
  label : String
  kind : ExtraKind
  amount : Option ℚ
  currency : Option Currency
  percent : Option ℚ
  allocation : Allocation
deriving DecidableEq, Repr

/-- ProductInput record, from the `ProductInput` zod schema; the unit
economics fields have zod default 0, so after parsing they are plain
numbers. -/
structure ProductInput where
  id : String
  name : Option String
  quantity : ℚ
  unitSellPrice : ℚ
  unitSupplierCost : ℚ
  unitProductionOverhead : ℚ
  markupPct : ℚ
deriving DecidableEq, Repr

/-- CalcInput record, from the `CalcInput` zod schema (`usdRate` and
`targetMarginPct` have zod defaults, hence plain `ℚ` after parsing). -/
structure CalcInput where
  baseCurrency : Currency
  usdRate : ℚ
  products : List ProductInput
  extras : List ExtraCost
  targetMarginPct : ℚ
deriving DecidableEq, Repr

/-- ProductBreakdown, the per-product derived record of `computeCalculator`. -/
structure ProductBreakdown where
  productId : String
  name : String
  quantity : ℚ
  revenue : ℚ
  supplierCost : ℚ
  productionOverhead : ℚ
  grossProfit : ℚ
deriving DecidableEq, Repr

/-- Results, the aggregate output record of `computeCalculator`. -/
structure Results where
  revenue : ℚ
  netRevenue : ℚ
  supplier : ℚ
  prodOverhead : ℚ
  extrasTotal : ℚ
  withholdingTax : ℚ
  grossProfit : ℚ
  marginPct : ℚ
  profitPerUnit : ℚ
  netRevenuePerUnit : ℚ
  requiredUnitPrice : ℚ
  productBreakdown : List ProductBreakdown
deriving DecidableEq, Repr

/-- InvoiceItem record, from the `InvoiceItem` zod schema.  `quantity` and
`unitPrice` are `Option ℚ` so that a non-finite JavaScript number (which
`computeInvoiceTotals` guards against with `Number.isFinite`) is
representable as `none`. -/
structure InvoiceItem where
  id : String
  description : String
  quantity : Option ℚ
  unitPrice : Option ℚ
deriving DecidableEq, Repr

/-- InvoiceParty record, from the `InvoiceParty` zod schema (all fields
default to the empty string). -/
structure InvoiceParty where
  name : String
  email : String
  phone : String
  address : String
deriving DecidableEq, Repr

/-- InvoiceData record, from the `InvoiceData` zod schema.  The optional
numeric fields are `Option ℚ`; `none` models both an absent field and a
non-finite number. -/
structure InvoiceData where
  invoiceNumber : String
  issueDate : String
  dueDate : String
  currency : Currency
  invFrom : InvoiceParty
  invTo : InvoiceParty
  notes : Option String
  terms : Option String
  discountPct : Option ℚ
  taxPct : Option ℚ
  shipping : Option ℚ
  items : List InvoiceItem
deriving DecidableEq, Repr

/-- InvoiceTotals, the output record of `computeInvoiceTotals`. -/
structure InvoiceTotals where
  subtotal : ℚ
  discount : ℚ
  taxable : ℚ
  tax : ℚ
  shipping : ℚ
  total : ℚ
deriving DecidableEq, Repr

/-- WITHHOLDING_RATE constant: `const WITHHOLDING_RATE = 0.02`. -/
def WITHHOLDING_RATE : ℚ := 2 / 100

/-- NET_REVENUE_SHARE constant: `const NET_REVENUE_SHARE = 1 - WITHHOLDING_RATE`. -/
def NET_REVENUE_SHARE : ℚ := 1 - WITHHOLDING_RATE

/-- Model of `Number.isFinite(x) ? x : d`: a non-finite value (`none`)
is replaced by the fallback. -/
def finiteOr (x : Option ℚ) (d : ℚ) : ℚ :=
  match x with
  | some v => v
  | none => d

/-- Effective exchange rate inside `toBase`:
`Number.isFinite(usdRate) && usdRate > 0 ? usdRate : 1`. -/
def effectiveRate (usdRate : Option ℚ) : ℚ :=
  match usdRate with
  | some r => if 0 < r then r else 1
  | none => 1

/-- Server `toBase` from `utils/totals`:
converts `amount` from currency `curr` into `base` using `usdRate`,
substituting 0 for a non-finite amount and 1 for a non-finite or
non-positive rate; an absent `curr` returns the amount unconverted. -/
def toBase (amount : Option ℚ) (curr : Option Currency) (base : Currency)
    (usdRate : Option ℚ) : ℚ :=
  let a := finiteOr amount 0
  let rate := effectiveRate usdRate
  match curr with
  | none => a
  | some c =>
    match base with
    | Currency.NGN => if c = Currency.NGN then a else a * rate
    | Currency.USD => if c = Currency.USD then a else a / rate

/-- Client `toBase` from `src/client/src/utils/currency.ts`: identical body
except that the source currency is not optional. -/
def toBaseClient (amount : Option ℚ) (curr : Currency) (base : Currency)
    (usdRate : Option ℚ) : ℚ :=
  let a := finiteOr amount 0
  let rate := effectiveRate usdRate
  match base with
  | Currency.NGN => if curr = Currency.NGN then a else a * rate
  | Currency.USD => if curr = Currency.USD then a else a / rate

/-- Model of the JavaScript string-default idiom `s || d` applied to an
optional string: `undefined` and the empty string both fall back to `d`. -/
def strOr (s : Option String) (d : String) : String :=
  match s with
  | some v => if v = "" then d else v
  | none => d

/-- Per-product breakdown step of `computeCalculator` (`products.map`). -/
def productEntry (p : ProductInput) : ProductBreakdown :=
  let qty := max 0 p.quantity
  let revenue := p.unitSellPrice * qty
  let supplierCost := p.unitSupplierCost * qty
  let productionOverhead := p.unitProductionOverhead * qty
  let grossProfit := revenue - supplierCost - productionOverhead
  { productId := p.id
    name := strOr p.name "Product"
    quantity := qty
    revenue := revenue
    supplierCost := supplierCost
    productionOverhead := productionOverhead
    grossProfit := grossProfit }

/-- The `productBreakdown` list of `computeCalculator`. -/
def productBreakdownOf (input : CalcInput) : List ProductBreakdown :=
  input.products.map productEntry

/-- Aggregate `revenue` (`reduce((s,i)=>s+i.revenue,0)`). -/
def revenueOf (input : CalcInput) : ℚ :=
  (productBreakdownOf input).foldl (fun s i => s + i.revenue) 0

/-- Aggregate `supplier`. -/
def supplierOf (input : CalcInput) : ℚ :=
  (productBreakdownOf input).foldl (fun s i => s + i.supplierCost) 0

/-- Aggregate `prodOverhead`. -/
def prodOverheadOf (input : CalcInput) : ℚ :=
  (productBreakdownOf input).foldl (fun s i => s + i.productionOverhead) 0

/-- Aggregate `totalQuantity`. -/
def totalQuantityOf (input : CalcInput) : ℚ :=
  (productBreakdownOf input).foldl (fun s i => s + i.quantity) 0

/-- Value contributed by one extra cost (the body of `extras.map`):
percent-kind extras apply `max(0,percent)/100` to total revenue; amount-kind
extras convert `max(0,amount)` to the base currency and scale by total
quantity when allocated per-unit. -/
def extraValue (input : CalcInput) (extra : ExtraCost) : ℚ :=
  match extra.kind with
  | ExtraKind.percent =>
    let pct := max 0 (extra.percent.getD 0) / 100
    let revenueBasis := revenueOf input
    revenueBasis * pct
  | ExtraKind.amount =>
    let asBase := toBase (some (max 0 (extra.amount.getD 0))) extra.currency
      input.baseCurrency (some input.usdRate)
    match extra.allocation with
    | Allocation.perOrder => asBase
    | Allocation.perUnit =>
      let multiplier := if 0 < totalQuantityOf input then totalQuantityOf input else 0
      asBase * multiplier

/-- The `extraTotals` list of `computeCalculator`. -/
def extraTotalsOf (input : CalcInput) : List ℚ :=
  input.extras.map (extraValue input)

/-- Aggregate `extrasTotal` (`reduce((a,b)=>a+b,0)`). -/
def extrasTotalOf (input : CalcInput) : ℚ :=
  (extraTotalsOf input).foldl (fun a b => a + b) 0

/-- Intermediate `productionCost = supplier + prodOverhead + extrasTotal`. -/
def productionCostOf (input : CalcInput) : ℚ :=
  supplierOf input + prodOverheadOf input + extrasTotalOf input

/-- Intermediate `withholdingTax = revenue > 0 ? revenue * WITHHOLDING_RATE : 0`. -/
def withholdingTaxOf (input : CalcInput) : ℚ :=
  if 0 < revenueOf input then revenueOf input * WITHHOLDING_RATE else 0

/-- Intermediate `netRevenue = Math.max(revenue - withholdingTax, 0)`. -/
def netRevenueOf (input : CalcInput) : ℚ :=
  max (revenueOf input - withholdingTaxOf input) 0

/-- Intermediate `grossProfit = netRevenue - productionCost`. -/
def grossProfitOf (input : CalcInput) : ℚ :=
  netRevenueOf input - productionCostOf input

/-- Intermediate `marginPct = netRevenue > 0 ? (grossProfit/netRevenue)*100 : 0`. -/
def marginPctOf (input : CalcInput) : ℚ :=
  if 0 < netRevenueOf input then grossProfitOf input / netRevenueOf input * 100 else 0

/-- Intermediate `profitPerUnit = totalQuantity > 0 ? grossProfit/totalQuantity : 0`. -/
def profitPerUnitOf (input : CalcInput) : ℚ :=
  if 0 < totalQuantityOf input then grossProfitOf input / totalQuantityOf input else 0

/-- Intermediate `netRevenuePerUnit`. -/
def netRevenuePerUnitOf (input : CalcInput) : ℚ :=
  if 0 < totalQuantityOf input then netRevenueOf input / totalQuantityOf input else 0

/-- Intermediate `targetMargin = Math.max(0, targetMarginPct || 0) / 100`. -/
def targetMarginOf (input : CalcInput) : ℚ :=
  max 0 input.targetMarginPct / 100

/-- Intermediate `marginDenominator = (1 - targetMargin) * NET_REVENUE_SHARE`. -/
def marginDenominatorOf (input : CalcInput) : ℚ :=
  (1 - targetMarginOf input) * NET_REVENUE_SHARE

/-- Intermediate `requiredRevenue`: `productionCost / marginDenominator` when
`marginDenominator > 0` (`canComputeRevenue`), else 0. -/
def requiredRevenueOf (input : CalcInput) : ℚ :=
  if 0 < marginDenominatorOf input then productionCostOf input / marginDenominatorOf input
  else 0

/-- Intermediate `requiredUnitPrice`. -/
def requiredUnitPriceOf (input : CalcInput) : ℚ :=
  if 0 < marginDenominatorOf input ∧ 0 < requiredRevenueOf input ∧ 0 < totalQuantityOf input
  then requiredRevenueOf input / totalQuantityOf input
  else 0

/-- Full `computeCalculator` from `utils/totals`, assembled from the named
intermediates above, each of which mirrors one `const` binding of the
source function. -/
def computeCalculator (input : CalcInput) : Results :=
  { revenue := revenueOf input
    netRevenue := netRevenueOf input
    supplier := supplierOf input
    prodOverhead := prodOverheadOf input
    extrasTotal := extrasTotalOf input
    withholdingTax := withholdingTaxOf input
    grossProfit := grossProfitOf input
    marginPct := marginPctOf input
    profitPerUnit := profitPerUnitOf input
    netRevenuePerUnit := netRevenuePerUnitOf input
    requiredUnitPrice := requiredUnitPriceOf input
    productBreakdown := productBreakdownOf input }

/-- Sanitised item quantity in `computeInvoiceTotals`:
`Number.isFinite(item.quantity) ? Math.max(item.quantity, 0) : 0`. -/
def itemQty (item : InvoiceItem) : ℚ :=
  match item.quantity with
  | some q => max q 0
  | none => 0

/-- Sanitised item unit price in `computeInvoiceTotals`. -/
def itemPrice (item : InvoiceItem) : ℚ :=
  match item.unitPrice with
  | some p => max p 0
  | none => 0

/-- Sanitised optional percentage/amount in `computeInvoiceTotals`:
`Number.isFinite(x) ? Math.max(x || 0, 0) : 0` (for finite `x`, `x || 0`
has the same value as `x`). -/
def clampOpt (x : Option ℚ) : ℚ :=
  match x with
  | some v => max v 0
  | none => 0

/-- Full `computeInvoiceTotals` from `utils/totals`. -/
def computeInvoiceTotals (invoice : InvoiceData) : InvoiceTotals :=
  let subtotal := invoice.items.foldl (fun acc item => acc + itemQty item * itemPrice item) 0
  let discountPct := clampOpt invoice.discountPct
  let taxPct := clampOpt invoice.taxPct
  let shipping := clampOpt invoice.shipping
  let discount := subtotal * (discountPct / 100)
  let taxable := max (subtotal - discount) 0
  let tax := taxable * (taxPct / 100)
  let total := taxable + tax + shipping
  { subtotal := subtotal
    discount := discount
    taxable := taxable
    tax := tax
    shipping := shipping
    total := total }

/-- Model of the text-serialisation boundary of the SQLite storage
(`JSON.stringify` on write, `JSON.parse` on read): `encoded v` is the text
produced by encoding `v`, and `corrupt raw` is a stored text that
`JSON.parse` rejects. -/
inductive Stored (α : Type) where
  | encoded (v : α)
  | corrupt (raw : String)
deriving DecidableEq, Repr

/-- Decoding a stored text (`JSON.parse`): succeeds exactly on encoded
values. -/
def decodeStored {α : Type} : Stored α → Option α
  | Stored.encoded v => some v
  | Stored.corrupt _ => none

/-- The guarded decode used by the read endpoints
(`try { return JSON.parse(s) } catch { return s }`): a decode failure
falls back to the raw stored text. -/
def decodeOrRaw {α : Type} : Stored α → α ⊕ String
  | Stored.encoded v => Sum.inl v
  | Stored.corrupt raw => Sum.inr raw

/-- Error outcomes surfaced by the controllers: a 404, a thrown
`JSON.parse` error forwarded to `next(err)`, or a violation of the
`(userId, sequenceNumber)` unique index. -/
inductive ApiErr where
  | notFound
  | decodeFailure
  | uniqueViolation
deriving DecidableEq, Repr

/-- Payload object persisted for a receipt: `{ input, results }`. -/
structure ReceiptPayload where
  input : CalcInput
  results : Results
deriving DecidableEq, Repr

/-- Persisted Receipt row (`prisma` model `Receipt`).  `updatedAt` is
maintained by the storage engine itself and is not touched by any of the
modelled controllers, so it is omitted from the embedding. -/
structure ReceiptRec where
  id : String
  createdAt : Nat
  label : Option String
  payload : Stored ReceiptPayload
  receiptNumber : Int
  userId : String
deriving DecidableEq, Repr

/-- Persisted Invoice row (`prisma` model `Invoice`). -/
structure InvoiceRec where
  id : String
  createdAt : Nat
  label : Option String
  usdRate : Option ℚ
  payload : Stored InvoiceData
  totals : Stored InvoiceTotals
  invoiceNumber : Int
  userId : String
deriving DecidableEq, Repr

/-- Request body of receipt creation (`ReceiptCreateSchema`). -/
structure ReceiptCreateBody where
  label : Option String
  input : CalcInput
deriving DecidableEq, Repr

/-- Request body of receipt update (`ReceiptUpdateSchema`). -/
structure ReceiptUpdateBody where
  label : Option String
  input : Option CalcInput
deriving DecidableEq, Repr

/-- Request body of invoice creation (`InvoiceCreateSchema`). -/
structure InvoiceCreateBody where
  label : Option String
  usdRate : Option ℚ
  invoice : InvoiceData
deriving DecidableEq, Repr

/-- Request body of invoice update (`InvoiceUpdateSchema`). -/
structure InvoiceUpdateBody where
  label : Option String
  usdRate : Option ℚ
  invoice : Option InvoiceData
deriving DecidableEq, Repr

/-- Response row of the receipt read endpoints: the row with its payload
column passed through the guarded decode. -/
structure ReceiptResp where
  id : String
  createdAt : Nat
  label : Option String
  payload : ReceiptPayload ⊕ String
  receiptNumber : Int
  userId : String
deriving DecidableEq, Repr

/-- Response row of the invoice list endpoint (guarded decode of both
columns). -/
structure InvoiceResp where
  id : String
  createdAt : Nat
  label : Option String
  usdRate : Option ℚ
  payload : InvoiceData ⊕ String
  totals : InvoiceTotals ⊕ String
  invoiceNumber : Int
  userId : String
deriving DecidableEq, Repr

/-- Response row of the invoice get-by-id endpoint, whose decode is NOT
guarded (`JSON.parse` without try/catch). -/
structure InvoiceRespStrict where
  id : String
  createdAt : Nat
  label : Option String
  usdRate : Option ℚ
  payload : InvoiceData
  totals : InvoiceTotals
  invoiceNumber : Int
  userId : String
deriving DecidableEq, Repr

/-- Model of `findFirst({ where: { id, userId } })` for receipts. -/
def findReceipt (s : List ReceiptRec) (u id : String) : Option ReceiptRec :=
  s.find? (fun r => decide (r.id = id ∧ r.userId = u))

/-- Model of `findFirst({ where: { id, userId } })` for invoices. -/
def findInvoice (s : List InvoiceRec) (u id : String) : Option InvoiceRec :=
  s.find? (fun r => decide (r.id = id ∧ r.userId = u))

/-- The receipt numbers currently stored for one user. -/
def userReceiptNumbers (s : List ReceiptRec) (u : String) : List Int :=
  (s.filter (fun r => decide (r.userId = u))).map (fun r => r.receiptNumber)

/-- The invoice numbers currently stored for one user. -/
def userInvoiceNumbers (s : List InvoiceRec) (u : String) : List Int :=
  (s.filter (fun r => decide (r.userId = u))).map (fun r => r.invoiceNumber)

/-- Model of `findFirst({ where: { userId }, orderBy: { receiptNumber:
'desc' }, select: { receiptNumber } })`: the maximum receipt number of the
user's rows, or `none` when the user has none. -/
def maxReceiptNumber (s : List ReceiptRec) (u : String) : Option Int :=
  (userReceiptNumbers s u).max?

/-- Model of the corresponding max-read for invoices. -/
def maxInvoiceNumber (s : List InvoiceRec) (u : String) : Option Int :=
  (userInvoiceNumbers s u).max?

/-- Receipt creation, from `receipts.create`: inside one transaction, read
the user's maximum receipt number, compute `next = (last?.receiptNumber ??
0) + 1`, and insert the new row.  The whole step is one atomic state
transition, mirroring `prisma.$transaction`.  Returns the new store and
the created row. -/
def receiptCreate (s : List ReceiptRec) (u : String) (body : ReceiptCreateBody)
    (newId : String) (now : Nat) : List ReceiptRec × ReceiptRec :=
  let results := computeCalculator body.input
  let payloadObj : ReceiptPayload := { input := body.input, results := results }
  let nextReceiptNumber := (maxReceiptNumber s u).getD 0 + 1
  let created : ReceiptRec :=
    { id := newId
      createdAt := now
      label := body.label
      payload := Stored.encoded payloadObj
      receiptNumber := nextReceiptNumber
      userId := u }
  (created :: s, created)

/-- Display form of an invoice number:
`` `INV-${value.toString().padStart(4, '0')}` ``. -/
def padStart (s : String) (n : Nat) (c : Char) : String :=
  String.mk (List.replicate (n - s.length) c) ++ s

/-- The `formatInvoiceNumber` helper of `controllers/invoices.ts`. -/
def formatInvoiceNumber (value : Int) : String :=
  "INV-" ++ padStart (toString value) 4 '0'

/-- Invoice creation, from `invoices.create`: read the user's maximum
invoice number in the same transaction, compute the next number, overwrite
the request's `invoiceNumber` string with its formatted form, compute the
totals, and insert.  Returns the new store, the created row, the stored
payload object and the stored totals. -/
def invoiceCreate (s : List InvoiceRec) (u : String) (body : InvoiceCreateBody)
    (newId : String) (now : Nat) :
    List InvoiceRec × InvoiceRec × InvoiceData × InvoiceTotals :=
  let nextInvoiceNumber := (maxInvoiceNumber s u).getD 0 + 1
  let formattedNumber := formatInvoiceNumber nextInvoiceNumber
  let invoiceData := { body.invoice with invoiceNumber := formattedNumber }
  let totals := computeInvoiceTotals invoiceData
  let createdInvoice : InvoiceRec :=
    { id := newId
      createdAt := now
      label := body.label
      usdRate := body.usdRate
      payload := Stored.encoded invoiceData
      totals := Stored.encoded totals
      invoiceNumber := nextInvoiceNumber
      userId := u }
  (createdInvoice :: s, createdInvoice, invoiceData, totals)

/-- Model of `prisma.receipt.update({ where: { id }, data })`: replace the
row with the matching id. -/
def replaceReceipt (s : List ReceiptRec) (id : String) (r : ReceiptRec) :
    List ReceiptRec :=
  s.map (fun x => if x.id = id then r else x)

/-- Model of `prisma.invoice.update({ where: { id }, data })`. -/
def replaceInvoice (s : List InvoiceRec) (id : String) (r : InvoiceRec) :
    List InvoiceRec :=
  s.map (fun x => if x.id = id then r else x)

/-- Receipt update, from `receipts.update`: 404 when the row is not owned;
then the stored payload is decoded unconditionally (an unguarded
`JSON.parse`, so a corrupt payload makes the request fail); when the body
carries an input the payload is recomputed, otherwise the decoded payload
is re-encoded unchanged.  Only `label` and `payload` are written. -/
def receiptUpdate (s : List ReceiptRec) (u id : String)
    (body : ReceiptUpdateBody) : Except ApiErr (List ReceiptRec × ReceiptRec) :=
  match findReceipt s u id with
  | none => Except.error ApiErr.notFound
  | some found =>
    match decodeStored found.payload with
    | none => Except.error ApiErr.decodeFailure
    | some oldPayload =>
      let payload : ReceiptPayload :=
        match body.input with
        | some inp => { input := inp, results := computeCalculator inp }
        | none => oldPayload
      let updated : ReceiptRec :=
        { found with
          label := body.label.orElse (fun _ => found.label)
          payload := Stored.encoded payload }
      Except.ok (replaceReceipt s id updated, updated)

/-- Invoice update, from `invoices.update`: 404 when not owned; the stored
payload is decoded only when the body carries no invoice (`body.invoice ??
JSON.parse(found.payload)`, unguarded); the invoice's `invoiceNumber`
string is overwritten with the formatted form of the row's unchanged
integer number; totals are recomputed; `label`, `usdRate`, `payload` and
`totals` are written. -/
def invoiceUpdate (s : List InvoiceRec) (u id : String)
    (body : InvoiceUpdateBody) : Except ApiErr (List InvoiceRec × InvoiceRec) :=
  match findInvoice s u id with
  | none => Except.error ApiErr.notFound
  | some found =>
    let proceed : InvoiceData → Except ApiErr (List InvoiceRec × InvoiceRec) :=
      fun invoice =>
        let invoiceWithNumber :=
          { invoice with invoiceNumber := formatInvoiceNumber found.invoiceNumber }
        let totals := computeInvoiceTotals invoiceWithNumber
        let updated : InvoiceRec :=
          { found with
            label := body.label.orElse (fun _ => found.label)
            usdRate := body.usdRate.orElse (fun _ => found.usdRate)
            payload := Stored.encoded invoiceWithNumber
            totals := Stored.encoded totals }
        Except.ok (replaceInvoice s id updated, updated)
    match body.invoice with
    | some invoice => proceed invoice
    | none =>
      match decodeStored found.payload with
      | none => Except.error ApiErr.decodeFailure
      | some invoice => proceed invoice

/-- Model of `(i.label || '').toLowerCase().includes(q)`. -/
def labelMatches (label : Option String) (q : String) : Bool :=
  decide (List.IsInfix q.data ((label.getD "").toLower.data))

/-- Receipt response row: the stored payload goes through the guarded
decode (`try JSON.parse catch return raw`). -/
def mkReceiptResp (r : ReceiptRec) : ReceiptResp :=
  { id := r.id
    createdAt := r.createdAt
    label := r.label
    payload := decodeOrRaw r.payload
    receiptNumber := r.receiptNumber
    userId := r.userId }

/-- Invoice list response row, guarded decode of both text columns. -/
def mkInvoiceResp (r : InvoiceRec) : InvoiceResp :=
  { id := r.id
    createdAt := r.createdAt
    label := r.label
    usdRate := r.usdRate
    payload := decodeOrRaw r.payload
    totals := decodeOrRaw r.totals
    invoiceNumber := r.invoiceNumber
    userId := r.userId }

/-- Receipt list endpoint, from `receipts.list`: the user's rows ordered by
`receiptNumber` descending, filtered on the lowercased query when it is
non-empty, each with the guarded payload decode. -/
def receiptList (s : List ReceiptRec) (u : String) (q : String) :
    List ReceiptResp :=
  let qLower := q.toLower
  let items := (s.filter (fun r => decide (r.userId = u))).mergeSort
    (fun a b => decide (b.receiptNumber ≤ a.receiptNumber))
  let filtered := if qLower = "" then items
    else items.filter (fun i => labelMatches i.label qLower)
  filtered.map mkReceiptResp

/-- Invoice list endpoint, from `invoices.list`. -/
def invoiceList (s : List InvoiceRec) (u : String) (q : String) :
    List InvoiceResp :=
  let qLower := q.toLower
  let items := (s.filter (fun r => decide (r.userId = u))).mergeSort
    (fun a b => decide (b.invoiceNumber ≤ a.invoiceNumber))
  let filtered := if qLower = "" then items
    else items.filter (fun i => labelMatches i.label qLower)
  filtered.map mkInvoiceResp

/-- Receipt get-by-id endpoint, from `receipts.getOne`: 404 when not owned,
otherwise the row with the guarded payload decode — this read never fails
on a corrupt payload. -/
def receiptGetOne (s : List ReceiptRec) (u id : String) :
    Except ApiErr ReceiptResp :=
  match findReceipt s u id with
  | none => Except.error ApiErr.notFound
  | some item => Except.ok (mkReceiptResp item)

/-- Invoice get-by-id endpoint, from `invoices.getOne`: 404 when not owned;
both text columns are decoded with an UNGUARDED `JSON.parse`, so any decode
failure is thrown and forwarded to `next(err)` instead of falling back to
the raw text. -/
def invoiceGetOne (s : List InvoiceRec) (u id : String) :
    Except ApiErr InvoiceRespStrict :=
  match findInvoice s u id with
  | none => Except.error ApiErr.notFound
  | some item =>
    match decodeStored item.payload with
    | none => Except.error ApiErr.decodeFailure
    | some payload =>
      match decodeStored item.totals with
      | none => Except.error ApiErr.decodeFailure
      | some totals =>
        Except.ok
          { id := item.id
            createdAt := item.createdAt
            label := item.label
            usdRate := item.usdRate
            payload := payload
            totals := totals
            invoiceNumber := item.invoiceNumber
            userId := item.userId }

/-- Collision test of the unique index `Receipt_userId_receiptNumber_key`
(migration `20251028100311_add_receipt_number`). -/
def hasReceiptCollision (s : List ReceiptRec) (u : String) (n : Int) : Bool :=
  s.any (fun x => decide (x.userId = u ∧ x.receiptNumber = n))

/-- Collision test of the unique index `Invoice_userId_invoiceNumber_key`. -/
def hasInvoiceCollision (s : List InvoiceRec) (u : String) (n : Int) : Bool :=
  s.any (fun x => decide (x.userId = u ∧ x.invoiceNumber = n))

/-- Insert of a receipt row checked against the `(userId, receiptNumber)`
unique index: the insert fails with a uniqueness violation when the pair
already exists. -/
def insertReceiptChecked (s : List ReceiptRec) (r : ReceiptRec) :
    Except ApiErr (List ReceiptRec) :=
  if hasReceiptCollision s r.userId r.receiptNumber
  then Except.error ApiErr.uniqueViolation
  else Except.ok (r :: s)

/-- Insert of an invoice row checked against the `(userId, invoiceNumber)`
unique index. -/
def insertInvoiceChecked (s : List InvoiceRec) (r : InvoiceRec) :
    Except ApiErr (List InvoiceRec) :=
  if hasInvoiceCollision s r.userId r.invoiceNumber
  then Except.error ApiErr.uniqueViolation
  else Except.ok (r :: s)

/-- Outcome of a create request together with the number of times its
read-max-then-insert step was executed. -/
structure RacedReceiptCreate where
  result : Except ApiErr (List ReceiptRec × ReceiptRec)
  attempts : Nat
deriving Repr

/-- Outcome of a raced invoice create. -/
structure RacedInvoiceCreate where
  result : Except ApiErr (List InvoiceRec × InvoiceRec)
  attempts : Nat
deriving Repr

/-- Receipt creation under a race: `interference` is the set of rows
committed by concurrent transactions between this transaction's max-read
and its insert (the race described for weak isolation levels), and the
insert is checked against the unique index.  The controller body is
`try { await prisma.$transaction(...) } catch (err) { next(err) }` with no
loop, so the read-max-then-insert step runs exactly once (`attempts = 1`)
and a uniqueness violation propagates directly to the caller. -/
def receiptCreateRaced (s : List ReceiptRec) (u : String)
    (body : ReceiptCreateBody) (newId : String) (now : Nat)
    (interference : List ReceiptRec → List ReceiptRec) : RacedReceiptCreate :=
  let results := computeCalculator body.input
  let payloadObj : ReceiptPayload := { input := body.input, results := results }
  let nextReceiptNumber := (maxReceiptNumber s u).getD 0 + 1
  let created : ReceiptRec :=
    { id := newId
      createdAt := now
      label := body.label
      payload := Stored.encoded payloadObj
      receiptNumber := nextReceiptNumber
      userId := u }
  { result := (insertReceiptChecked (interference s) created).map
      (fun st => (st, created))
    attempts := 1 }

/-- Invoice creation under a race, mirroring `invoices.create` the same
way. -/
def invoiceCreateRaced (s : List InvoiceRec) (u : String)
    (body : InvoiceCreateBody) (newId : String) (now : Nat)
    (interference : List InvoiceRec → List InvoiceRec) : RacedInvoiceCreate :=
  let nextInvoiceNumber := (maxInvoiceNumber s u).getD 0 + 1
  let formattedNumber := formatInvoiceNumber nextInvoiceNumber
  let invoiceData := { body.invoice with invoiceNumber := formattedNumber }
  let totals := computeInvoiceTotals invoiceData
  let createdInvoice : InvoiceRec :=
    { id := newId
      createdAt := now
      label := body.label
      usdRate := body.usdRate
      payload := Stored.encoded invoiceData
      totals := Stored.encoded totals
      invoiceNumber := nextInvoiceNumber
      userId := u }
  { result := (insertInvoiceChecked (interference s) createdInvoice).map
      (fun st => (st, createdInvoice))
    attempts := 1 }

/-- N sequential receipt creations for one user (the `n`-th uses body
`bodies n`, id `ids n` and timestamp `times n`). -/
def receiptCreateN (u : String) (bodies : Nat → ReceiptCreateBody)
    (ids : Nat → String) (times : Nat → Nat) :
    Nat → List ReceiptRec → List ReceiptRec
  | 0, s => s
  | n + 1, s =>
    (receiptCreate (receiptCreateN u bodies ids times n s) u (bodies n)
      (ids n) (times n)).1

/-- N sequential invoice creations for one user. -/
def invoiceCreateN (u : String) (bodies : Nat → InvoiceCreateBody)
    (ids : Nat → String) (times : Nat → Nat) :
    Nat → List InvoiceRec → List InvoiceRec
  | 0, s => s
  | n + 1, s =>
    (invoiceCreate (invoiceCreateN u bodies ids times n s) u (bodies n)
      (ids n) (times n)).1

/-- The descending list `[n, n-1, …, 1]` (as integers): the sequence
numbers a user's store holds after `n` creations, newest first. -/
def seqCountdown : Nat → List Int
  | 0 => []
  | n + 1 => ((n : Int) + 1) :: seqCountdown n

/-! Shared concrete sample values (the spec's worked examples), used by
witnesses. -/

/-- Sample product of the spec's worked example. -/
def sampleProduct : ProductInput :=
  { id := "p1", name := none, quantity := 10, unitSellPrice := 100,
    unitSupplierCost := 40, unitProductionOverhead := 10, markupPct := 0 }

/-- Sample CalcInput of the spec's worked example. -/
def sampleCalcInput : CalcInput :=
  { baseCurrency := Currency.NGN, usdRate := 1, products := [sampleProduct],
    extras := [], targetMarginPct := 0 }

/-- Revenue of the sample input evaluates to 1000. -/
lemma revenueOf_sample : revenueOf sampleCalcInput = 1000 := by
  norm_num [revenueOf, productBreakdownOf, productEntry, sampleCalcInput,
    sampleProduct, max_def]

/-- Folding addition of `f` over a list from `c` is `c` plus the sum of the
mapped list. -/
lemma foldl_add_eq {α : Type} (f : α → ℚ) :
    ∀ (l : List α) (c : ℚ), l.foldl (fun acc x => acc + f x) c = c + (l.map f).sum
  | [], c => by simp
  | x :: l, c => by
    simp only [List.foldl_cons, List.map_cons, List.sum_cons, foldl_add_eq f l]
    ring

/-- Setting position `i` of a list to the value already there leaves the
list unchanged. -/
lemma list_set_self {α : Type} :
    ∀ (l : List α) (i : Nat) (x : α), l.get? i = some x → l.set i x = l
  | [], i, x, h => by cases i <;> simp at h
  | a :: l, 0, x, h => by
    simp only [List.get?] at h
    injection h with h'
    simp [h']
  | a :: l, i + 1, x, h => by
    simp only [List.get?] at h
    simp [list_set_self l i x h]

/-- C2: for every `CalcInput` whose computed total revenue is nonnegative,
`computeCalculator` returns `netRevenue = max(revenue * 0.98, 0)`; the code
computes `withholdingTax = revenue * 0.02` when `revenue > 0` (else 0) and
`netRevenue = max(revenue - withholdingTax, 0)` unconditionally. -/
theorem calculator_netRevenue_claim (input : CalcInput)
    (h : 0 ≤ revenueOf input) :
    (computeCalculator input).netRevenue = max (revenueOf input * (98 / 100)) 0 ∧
    (computeCalculator input).withholdingTax =
      (if 0 < revenueOf input then revenueOf input * (2 / 100) else 0) ∧
    (computeCalculator input).netRevenue =
      max (revenueOf input - (computeCalculator input).withholdingTax) 0 := by
  refine ⟨?_, ?_, ?_⟩
  · show netRevenueOf input = _
    unfold netRevenueOf withholdingTaxOf WITHHOLDING_RATE
    rcases lt_or_eq_of_le h with hr | hr
    · rw [if_pos hr]
      congr 1
      ring
    · rw [← hr]
      norm_num
  · rfl
  · rfl

/-- Witness for C2 at the spec's sample input (revenue 1000 ≥ 0). -/
theorem calculator_netRevenue_claim_witness :
    0 ≤ revenueOf sampleCalcInput ∧
    (computeCalculator sampleCalcInput).netRevenue =
      max (revenueOf sampleCalcInput * (98 / 100)) 0 := by
  have h : 0 ≤ revenueOf sampleCalcInput := by
    rw [revenueOf_sample]
    norm_num
  exact ⟨h, (calculator_netRevenue_claim sampleCalcInput h).1⟩

/-- C4: `marginDenominator ≤ 0` exactly when `targetMarginPct ≥ 100`, and in
that case `computeCalculator` returns `requiredUnitPrice = 0` and the
internal `requiredRevenue` is set to 0 rather than computed. -/
theorem calculator_marginCeiling_claim :
    (∀ input : CalcInput,
      marginDenominatorOf input ≤ 0 ↔ 100 ≤ input.targetMarginPct) ∧
    (∀ input : CalcInput, 100 ≤ input.targetMarginPct →
      (computeCalculator input).requiredUnitPrice = 0 ∧
      requiredRevenueOf input = 0) := by
  have key : ∀ input : CalcInput,
      marginDenominatorOf input ≤ 0 ↔ 100 ≤ input.targetMarginPct := by
    intro input
    unfold marginDenominatorOf targetMarginOf NET_REVENUE_SHARE WITHHOLDING_RATE
    constructor
    · intro hle
      have h3 : (100 : ℚ) ≤ max 0 input.targetMarginPct := by nlinarith
      rcases le_max_iff.mp h3 with hx | hx
      · norm_num at hx
      · exact hx
    · intro h100
      have hmax : max 0 input.targetMarginPct = input.targetMarginPct :=
        max_eq_right (by linarith)
      rw [hmax]
      nlinarith
  refine ⟨key, ?_⟩
  intro input h100
  have hnot : ¬ 0 < marginDenominatorOf input :=
    not_lt.mpr ((key input).mpr h100)
  constructor
  · show requiredUnitPriceOf input = 0
    unfold requiredUnitPriceOf
    rw [if_neg (fun hc => hnot hc.1)]
  · unfold requiredRevenueOf
    rw [if_neg hnot]

/-- Sample input with a 150% target margin (above the ceiling). -/
def sampleHighMargin : CalcInput :=
  { sampleCalcInput with targetMarginPct := 150 }

/-- Witness for C4 at a target margin of 150%. -/
theorem calculator_marginCeiling_claim_witness :
    (computeCalculator sampleHighMargin).requiredUnitPrice = 0 ∧
    requiredRevenueOf sampleHighMargin = 0 :=
  calculator_marginCeiling_claim.2 sampleHighMargin
    (by norm_num [sampleHighMargin, sampleCalcInput])

/-- Replacing the extras list of an input without changing the resulting
`extrasTotal` leaves the whole `Results` unchanged (every other aggregate
reads only the products and the target margin). -/
lemma computeCalculator_extras_congr (input : CalcInput) (l' : List ExtraCost)
    (hTot : extrasTotalOf { input with extras := l' } = extrasTotalOf input) :
    computeCalculator { input with extras := l' } = computeCalculator input := by
  have hPC : productionCostOf { input with extras := l' } = productionCostOf input := by
    unfold productionCostOf
    rw [hTot]
    exact rfl
  unfold computeCalculator
  simp only [Results.mk.injEq]
  refine ⟨rfl, rfl, rfl, rfl, hTot, rfl, ?_, ?_, ?_, rfl, ?_, rfl⟩
  · unfold grossProfitOf
    rw [hPC]
    exact rfl
  · unfold marginPctOf grossProfitOf
    rw [hPC]
    exact rfl
  · unfold profitPerUnitOf grossProfitOf
    rw [hPC]
    exact rfl
  · unfold requiredUnitPriceOf requiredRevenueOf
    rw [hPC]
    exact rfl

/-- C3: a percent-kind extra contributes `max(0, percent)/100 × revenue`
to `extrasTotal`, and its `allocation` field has no effect: replacing the
allocation of a percent-kind extra anywhere in the extras list leaves the
entire `Results` unchanged. -/
theorem percentExtra_allocation_claim :
    (∀ (input : CalcInput) (e : ExtraCost), e.kind = ExtraKind.percent →
      extraValue input e = max 0 (e.percent.getD 0) / 100 * revenueOf input) ∧
    (∀ (input : CalcInput) (i : Nat) (e : ExtraCost) (a : Allocation),
      input.extras[i]? = some e → e.kind = ExtraKind.percent →
      computeCalculator
        { input with extras := input.extras.set i { e with allocation := a } } =
        computeCalculator input) := by
  constructor
  · intro input e hk
    simp only [extraValue, hk]
    ring
  · intro input i e a hget hk
    apply computeCalculator_extras_congr
    have hlen : i < input.extras.length := by
      by_contra hge
      rw [List.getElem?_eq_none (le_of_not_lt hge)] at hget
      exact Option.noConfusion hget
    have hval : extraValue input { e with allocation := a } = extraValue input e := by
      simp only [extraValue, hk]
    have hmaps : (input.extras.set i { e with allocation := a }).map
        (extraValue input) = input.extras.map (extraValue input) := by
      rw [List.map_set, hval]
      apply list_set_self
      rw [List.get?_eq_getElem?, List.getElem?_map, hget, Option.map_some']
    have hf : extraValue
        { input with extras := input.extras.set i { e with allocation := a } } =
        extraValue input := rfl
    show extrasTotalOf _ = extrasTotalOf input
    unfold extrasTotalOf extraTotalsOf
    rw [hf]
    exact congrArg (fun l => l.foldl (fun x y => x + y) (0 : ℚ)) hmaps

/-- Sample percent-kind extra cost (7.5%). -/
def samplePercentExtra : ExtraCost :=
  { id := "e1", label := "levy", kind := ExtraKind.percent, amount := none,
    currency := none, percent := some (15 / 2), allocation := Allocation.perUnit }

/-- Sample input carrying the percent-kind extra. -/
def samplePercentInput : CalcInput :=
  { sampleCalcInput with extras := [samplePercentExtra] }

/-- Witness for C3: flipping the sample percent extra's allocation from
per-unit to per-order leaves the whole result unchanged, and its
contribution is 7.5% of revenue. -/
theorem percentExtra_allocation_claim_witness :
    computeCalculator
      { samplePercentInput with
        extras := samplePercentInput.extras.set 0
          { samplePercentExtra with allocation := Allocation.perOrder } } =
      computeCalculator samplePercentInput ∧
    extraValue samplePercentInput samplePercentExtra =
      max 0 (samplePercentExtra.percent.getD 0) / 100 * revenueOf samplePercentInput := by
  constructor
  · exact percentExtra_allocation_claim.2 samplePercentInput 0 samplePercentExtra
      Allocation.perOrder (by rfl) (by rfl)
  · exact percentExtra_allocation_claim.1 samplePercentInput samplePercentExtra (by rfl)

/-- Empty invoice party. -/
def emptyParty : InvoiceParty := { name := "", email := "", phone := "", address := "" }

/-- Sample invoice item of the spec's worked example. -/
def sampleInvoiceItem : InvoiceItem :=
  { id := "it1", description := "widget", quantity := some 3, unitPrice := some 200 }

/-- Sample invoice of the spec's worked example. -/
def sampleInvoice : InvoiceData :=
  { invoiceNumber := "INV-0001", issueDate := "2025-10-28", dueDate := "2025-11-28",
    currency := Currency.NGN, invFrom := emptyParty, invTo := emptyParty,
    notes := none, terms := none, discountPct := some 10, taxPct := some 5,
    shipping := some 20, items := [sampleInvoiceItem] }

/-- C5: `computeInvoiceTotals` returns `subtotal = Σ max(quantity,0) ×
max(unitPrice,0)` (non-finite values treated as 0 via the sanitisers),
`discount = subtotal × discountPct/100`, `taxable = max(subtotal −
discount, 0)`, `tax = taxable × taxPct/100` and `total = taxable + tax +
shipping` with the optional rates clamped to ≥ 0; on the spec's worked
example it yields 600/60/540/27/587. -/
theorem invoiceTotals_claim :
    (∀ invoice : InvoiceData,
      (computeInvoiceTotals invoice).subtotal =
        (invoice.items.map (fun it => itemQty it * itemPrice it)).sum ∧
      (computeInvoiceTotals invoice).discount =
        (computeInvoiceTotals invoice).subtotal * (clampOpt invoice.discountPct / 100) ∧
      (computeInvoiceTotals invoice).taxable =
        max ((computeInvoiceTotals invoice).subtotal -
          (computeInvoiceTotals invoice).discount) 0 ∧
      (computeInvoiceTotals invoice).tax =
        (computeInvoiceTotals invoice).taxable * (clampOpt invoice.taxPct / 100) ∧
      (computeInvoiceTotals invoice).shipping = clampOpt invoice.shipping ∧
      (computeInvoiceTotals invoice).total =
        (computeInvoiceTotals invoice).taxable + (computeInvoiceTotals invoice).tax +
          (computeInvoiceTotals invoice).shipping) ∧
    (∀ it : InvoiceItem,
      itemQty it = clampOpt it.quantity ∧ itemPrice it = clampOpt it.unitPrice) ∧
    clampOpt none = 0 ∧
    (∀ x : ℚ, clampOpt (some x) = max x 0) ∧
    computeInvoiceTotals sampleInvoice =
      { subtotal := 600, discount := 60, taxable := 540, tax := 27,
        shipping := 20, total := 587 } := by
  refine ⟨?_, ?_, rfl, fun x => rfl, ?_⟩
  · intro invoice
    refine ⟨?_, rfl, rfl, rfl, rfl, rfl⟩
    show invoice.items.foldl (fun acc item => acc + itemQty item * itemPrice item) 0 = _
    rw [foldl_add_eq (fun it => itemQty it * itemPrice it) invoice.items 0, zero_add]
  · intro it
    constructor
    · cases h : it.quantity <;> simp [itemQty, clampOpt, h]
    · cases h : it.unitPrice <;> simp [itemPrice, clampOpt, h]
  · norm_num [computeInvoiceTotals, sampleInvoice, sampleInvoiceItem, itemQty,
      itemPrice, clampOpt]

/-- C9: `toBase` is total and characterised case by case: `none` source
currency returns the (finiteness-sanitised) amount; equal source and base
return it; converting into NGN multiplies by the effective rate and
converting into USD divides by it; the effective rate substitutes 1 for a
non-finite or non-positive `usdRate` and is always positive (so the
division is by a nonzero number and the result is always a finite
rational); a non-finite amount is substituted with 0; the client-side copy
agrees with the server's on every present source currency. -/
theorem toBase_claim :
    (∀ (a : Option ℚ) (b : Currency) (r : Option ℚ),
      toBase a none b r = finiteOr a 0) ∧
    (∀ (a : Option ℚ) (b : Currency) (r : Option ℚ),
      toBase a (some b) b r = finiteOr a 0) ∧
    (∀ (a r : Option ℚ),
      toBase a (some Currency.USD) Currency.NGN r = finiteOr a 0 * effectiveRate r) ∧
    (∀ (a r : Option ℚ),
      toBase a (some Currency.NGN) Currency.USD r = finiteOr a 0 / effectiveRate r) ∧
    (∀ r : Option ℚ, 0 < effectiveRate r) ∧
    effectiveRate none = 1 ∧
    (∀ v : ℚ, v ≤ 0 → effectiveRate (some v) = 1) ∧
    finiteOr none 0 = 0 ∧
    (∀ (a : Option ℚ) (c b : Currency) (r : Option ℚ),
      toBaseClient a c b r = toBase a (some c) b r) := by
  refine ⟨fun a b r => rfl, ?_, ?_, ?_, ?_, rfl, ?_, rfl, ?_⟩
  · intro a b r
    cases b <;> simp [toBase]
  · intro a r
    simp [toBase]
  · intro a r
    simp [toBase]
  · intro r
    unfold effectiveRate
    cases r with
    | none => norm_num
    | some v =>
      by_cases h : 0 < v
      · simp [h]
      · simp [h]
  · intro v hv
    simp only [effectiveRate]
    rw [if_neg (not_lt.mpr hv)]
  · intro a c b r
    cases b <;> rfl

/-- Witness for C9: a zero-or-negative rate is substituted with 1. -/
theorem toBase_claim_witness :
    (-2 : ℚ) ≤ 0 ∧ effectiveRate (some (-2)) = 1 :=
  ⟨by norm_num, toBase_claim.2.2.2.2.2.2.1 (-2) (by norm_num)⟩

/-- Folding `max` over a list of elements all bounded by the seed returns
the seed. -/
lemma foldl_max_of_le :
    ∀ (l : List Int) (a : Int), (∀ x ∈ l, x ≤ a) → l.foldl max a = a
  | [], _, _ => rfl
  | x :: l, a, h => by
    have hx : max a x = a := max_eq_left (h x (List.mem_cons_self x l))
    simp only [List.foldl_cons, hx]
    exact foldl_max_of_le l a (fun y hy => h y (List.mem_cons_of_mem x hy))

/-- Membership in the countdown list is exactly the interval `{1, …, n}`. -/
lemma seqCountdown_mem :
    ∀ (n : Nat) (m : Int), m ∈ seqCountdown n ↔ 1 ≤ m ∧ m ≤ (n : Int)
  | 0, m => by
    simp only [seqCountdown, List.not_mem_nil, false_iff]
    omega
  | n + 1, m => by
    simp only [seqCountdown, List.mem_cons, seqCountdown_mem n m]
    omega

/-- The countdown list has no duplicates. -/
lemma seqCountdown_nodup : ∀ n : Nat, (seqCountdown n).Nodup
  | 0 => List.nodup_nil
  | n + 1 => by
    simp only [seqCountdown, List.nodup_cons, seqCountdown_mem n]
    exact ⟨by omega, seqCountdown_nodup n⟩

/-- The maximum of the countdown list (0 when empty) is `n`. -/
lemma seqCountdown_max : ∀ n : Nat, (seqCountdown n).max?.getD 0 = (n : Int)
  | 0 => rfl
  | n + 1 => by
    have hb : ∀ x ∈ seqCountdown n, x ≤ (n : Int) + 1 := by
      intro x hx
      have := (seqCountdown_mem n x).mp hx
      omega
    simp only [seqCountdown, List.max?, foldl_max_of_le (seqCountdown n) _ hb,
      Option.getD_some]
    push_cast
    ring

/-- One receipt creation prepends `max + 1` to the user's number list. -/
lemma userReceiptNumbers_create (s : List ReceiptRec) (u : String)
    (b : ReceiptCreateBody) (i : String) (t : Nat) :
    userReceiptNumbers (receiptCreate s u b i t).1 u =
      ((maxReceiptNumber s u).getD 0 + 1) :: userReceiptNumbers s u := by
  simp [receiptCreate, userReceiptNumbers, List.filter_cons]

/-- One invoice creation prepends `max + 1` to the user's number list. -/
lemma userInvoiceNumbers_create (s : List InvoiceRec) (u : String)
    (b : InvoiceCreateBody) (i : String) (t : Nat) :
    userInvoiceNumbers (invoiceCreate s u b i t).1 u =
      ((maxInvoiceNumber s u).getD 0 + 1) :: userInvoiceNumbers s u := by
  simp [invoiceCreate, userInvoiceNumbers, List.filter_cons]

/-- After `N` receipt creations from a store with no rows for the user, the
user's number list is exactly the countdown `[N, …, 1]`. -/
lemma userReceiptNumbers_createN (u : String) (bodies : Nat → ReceiptCreateBody)
    (ids : Nat → String) (times : Nat → Nat) (s : List ReceiptRec)
    (h : userReceiptNumbers s u = []) :
    ∀ N, userReceiptNumbers (receiptCreateN u bodies ids times N s) u = seqCountdown N
  | 0 => h
  | N + 1 => by
    have ih := userReceiptNumbers_createN u bodies ids times s h N
    show userReceiptNumbers
      (receiptCreate (receiptCreateN u bodies ids times N s) u (bodies N)
        (ids N) (times N)).1 u = _
    rw [userReceiptNumbers_create]
    unfold maxReceiptNumber
    rw [ih, seqCountdown_max]
    rfl

/-- After `N` invoice creations from a store with no rows for the user, the
user's number list is exactly the countdown `[N, …, 1]`. -/
lemma userInvoiceNumbers_createN (u : String) (bodies : Nat → InvoiceCreateBody)
    (ids : Nat → String) (times : Nat → Nat) (s : List InvoiceRec)
    (h : userInvoiceNumbers s u = []) :
    ∀ N, userInvoiceNumbers (invoiceCreateN u bodies ids times N s) u = seqCountdown N
  | 0 => h
  | N + 1 => by
    have ih := userInvoiceNumbers_createN u bodies ids times s h N
    show userInvoiceNumbers
      (invoiceCreate (invoiceCreateN u bodies ids times N s) u (bodies N)
        (ids N) (times N)).1 u = _
    rw [userInvoiceNumbers_create]
    unfold maxInvoiceNumber
    rw [ih, seqCountdown_max]
    rfl

/-- C1: starting from a store with no rows for a user, `N` successive
creations (each one an atomic read-max-then-insert transaction) assign that
user's receipt (resp. invoice) numbers `[N, …, 1]` — exactly the set
`{1, …, N}`, duplicate-free and gapless — and each single create assigns
`1 + max(existing numbers)` (1 when none exist, via `getD 0`). -/
theorem sequence_numbers_claim :
    (∀ (s : List ReceiptRec) (u : String) (bodies : Nat → ReceiptCreateBody)
      (ids : Nat → String) (times : Nat → Nat) (N : Nat),
      userReceiptNumbers s u = [] →
      userReceiptNumbers (receiptCreateN u bodies ids times N s) u = seqCountdown N) ∧
    (∀ (s : List InvoiceRec) (u : String) (bodies : Nat → InvoiceCreateBody)
      (ids : Nat → String) (times : Nat → Nat) (N : Nat),
      userInvoiceNumbers s u = [] →
      userInvoiceNumbers (invoiceCreateN u bodies ids times N s) u = seqCountdown N) ∧
    (∀ N : Nat, (seqCountdown N).Nodup) ∧
    (∀ (N : Nat) (m : Int), m ∈ seqCountdown N ↔ 1 ≤ m ∧ m ≤ (N : Int)) ∧
    (∀ (s : List ReceiptRec) (u : String) (b : ReceiptCreateBody) (i : String) (t : Nat),
      ((receiptCreate s u b i t).2).receiptNumber = (maxReceiptNumber s u).getD 0 + 1) ∧
    (∀ (s : List InvoiceRec) (u : String) (b : InvoiceCreateBody) (i : String) (t : Nat),
      ((invoiceCreate s u b i t).2.1).invoiceNumber = (maxInvoiceNumber s u).getD 0 + 1) :=
  ⟨fun s u bodies ids times N h => userReceiptNumbers_createN u bodies ids times s h N,
   fun s u bodies ids times N h => userInvoiceNumbers_createN u bodies ids times s h N,
   seqCountdown_nodup,
   seqCountdown_mem,
   fun _ _ _ _ _ => rfl,
   fun _ _ _ _ _ => rfl⟩

/-- Sample receipt-creation request body. -/
def sampleReceiptBody : ReceiptCreateBody :=
  { label := some "first", input := sampleCalcInput }

/-- Witness for C1: three creations from the empty store give the user the
receipt numbers `[3, 2, 1]`. -/
theorem sequence_numbers_claim_witness :
    userReceiptNumbers ([] : List ReceiptRec) "u1" = [] ∧
    userReceiptNumbers
      (receiptCreateN "u1" (fun _ => sampleReceiptBody) (fun n => toString n)
        (fun n => n) 3 []) "u1" = seqCountdown 3 :=
  ⟨rfl, sequence_numbers_claim.1 [] "u1" (fun _ => sampleReceiptBody)
    (fun n => toString n) (fun n => n) 3 rfl⟩

/-- C7: a successful receipt (resp. invoice) update writes back a row whose
id, owner, creation time and sequence number are those of the found row —
only `label`, `usdRate` (invoices), `payload` and `totals` are written by
the update statement. -/
theorem update_preserves_sequence_claim :
    (∀ (s : List ReceiptRec) (u id : String) (body : ReceiptUpdateBody)
      (s' : List ReceiptRec) (r found : ReceiptRec),
      findReceipt s u id = some found →
      receiptUpdate s u id body = Except.ok (s', r) →
      r.id = found.id ∧ r.userId = found.userId ∧ r.createdAt = found.createdAt ∧
        r.receiptNumber = found.receiptNumber) ∧
    (∀ (s : List InvoiceRec) (u id : String) (body : InvoiceUpdateBody)
      (s' : List InvoiceRec) (r found : InvoiceRec),
      findInvoice s u id = some found →
      invoiceUpdate s u id body = Except.ok (s', r) →
      r.id = found.id ∧ r.userId = found.userId ∧ r.createdAt = found.createdAt ∧
        r.invoiceNumber = found.invoiceNumber) := by
  constructor
  · intro s u id body s' r found hfind hupd
    unfold receiptUpdate at hupd
    simp only [hfind] at hupd
    cases hdec : decodeStored found.payload with
    | none =>
      simp only [hdec] at hupd
      exact Except.noConfusion hupd
    | some oldPayload =>
      simp only [hdec, Except.ok.injEq, Prod.mk.injEq] at hupd
      obtain ⟨-, hr⟩ := hupd
      rw [← hr]
      exact ⟨rfl, rfl, rfl, rfl⟩
  · intro s u id body s' r found hfind hupd
    unfold invoiceUpdate at hupd
    simp only [hfind] at hupd
    cases hbi : body.invoice with
    | some inv =>
      simp only [hbi, Except.ok.injEq, Prod.mk.injEq] at hupd
      obtain ⟨-, hr⟩ := hupd
      rw [← hr]
      exact ⟨rfl, rfl, rfl, rfl⟩
    | none =>
      simp only [hbi] at hupd
      cases hdec : decodeStored found.payload with
      | none =>
        simp only [hdec] at hupd
        exact Except.noConfusion hupd
      | some inv =>
        simp only [hdec, Except.ok.injEq, Prod.mk.injEq] at hupd
        obtain ⟨-, hr⟩ := hupd
        rw [← hr]
        exact ⟨rfl, rfl, rfl, rfl⟩

/-- Store holding one freshly created receipt for user `u1`. -/
def sampleReceiptStore : List ReceiptRec :=
  (receiptCreate [] "u1" sampleReceiptBody "r1" 5).1

/-- The receipt row created into `sampleReceiptStore`. -/
def sampleStoredReceipt : ReceiptRec :=
  (receiptCreate [] "u1" sampleReceiptBody "r1" 5).2

/-- Update body renaming the sample receipt. -/
def sampleReceiptUpdateBody : ReceiptUpdateBody :=
  { label := some "renamed", input := none }

/-- The row the sample update writes back. -/
def sampleUpdatedReceipt : ReceiptRec :=
  { sampleStoredReceipt with label := some "renamed" }

/-- Witness for C7: updating the sample receipt's label succeeds and keeps
its receipt number. -/
theorem update_preserves_sequence_claim_witness :
    findReceipt sampleReceiptStore "u1" "r1" = some sampleStoredReceipt ∧
    receiptUpdate sampleReceiptStore "u1" "r1" sampleReceiptUpdateBody =
      Except.ok (replaceReceipt sampleReceiptStore "r1" sampleUpdatedReceipt,
        sampleUpdatedReceipt) ∧
    sampleUpdatedReceipt.receiptNumber = sampleStoredReceipt.receiptNumber := by
  have h1 : findReceipt sampleReceiptStore "u1" "r1" = some sampleStoredReceipt := rfl
  have h2 : receiptUpdate sampleReceiptStore "u1" "r1" sampleReceiptUpdateBody =
      Except.ok (replaceReceipt sampleReceiptStore "r1" sampleUpdatedReceipt,
        sampleUpdatedReceipt) := rfl
  exact ⟨h1, h2,
    (update_preserves_sequence_claim.1 sampleReceiptStore "u1" "r1"
      sampleReceiptUpdateBody _ _ _ h1 h2).2.2.2⟩

/-- C10: on invoice create and update, the persisted payload's
`invoiceNumber` string is exactly `formatInvoiceNumber` of the row's
integer invoice number (`INV-` plus the number zero-padded to 4 digits),
and any `invoiceNumber` string supplied by the caller is ignored. -/
theorem invoiceNumber_snapshot_claim :
    (∀ (s : List InvoiceRec) (u : String) (body : InvoiceCreateBody)
      (i : String) (t : Nat),
      ((invoiceCreate s u body i t).2.1).payload =
        Stored.encoded ((invoiceCreate s u body i t).2.2.1) ∧
      ((invoiceCreate s u body i t).2.2.1).invoiceNumber =
        formatInvoiceNumber ((invoiceCreate s u body i t).2.1).invoiceNumber) ∧
    (∀ (s : List InvoiceRec) (u : String) (body : InvoiceCreateBody)
      (i : String) (t : Nat) (str : String),
      invoiceCreate s u
        { body with invoice := { body.invoice with invoiceNumber := str } } i t =
        invoiceCreate s u body i t) ∧
    (∀ (s : List InvoiceRec) (u id : String) (body : InvoiceUpdateBody)
      (s' : List InvoiceRec) (r : InvoiceRec),
      invoiceUpdate s u id body = Except.ok (s', r) →
      ∃ d : InvoiceData, r.payload = Stored.encoded d ∧
        d.invoiceNumber = formatInvoiceNumber r.invoiceNumber) ∧
    (∀ (s : List InvoiceRec) (u id : String) (label : Option String)
      (usd : Option ℚ) (inv : InvoiceData) (str : String),
      invoiceUpdate s u id ⟨label, usd, some { inv with invoiceNumber := str }⟩ =
        invoiceUpdate s u id ⟨label, usd, some inv⟩) := by
  refine ⟨fun s u body i t => ⟨rfl, rfl⟩, fun s u body i t str => rfl, ?_, ?_⟩
  · intro s u id body s' r hupd
    unfold invoiceUpdate at hupd
    cases hfind : findInvoice s u id with
    | none =>
      simp only [hfind] at hupd
      exact Except.noConfusion hupd
    | some found =>
      simp only [hfind] at hupd
      cases hbi : body.invoice with
      | some inv =>
        simp only [hbi, Except.ok.injEq, Prod.mk.injEq] at hupd
        obtain ⟨-, hr⟩ := hupd
        rw [← hr]
        exact ⟨_, rfl, rfl⟩
      | none =>
        simp only [hbi] at hupd
        cases hdec : decodeStored found.payload with
        | none =>
          simp only [hdec] at hupd
          exact Except.noConfusion hupd
        | some inv =>
          simp only [hdec, Except.ok.injEq, Prod.mk.injEq] at hupd
          obtain ⟨-, hr⟩ := hupd
          rw [← hr]
          exact ⟨_, rfl, rfl⟩
  · intro s u id label usd inv str
    unfold invoiceUpdate
    cases hfind : findInvoice s u id <;> rfl

/-- Result of creating an invoice whose body carries a bogus caller-supplied
invoice number. -/
def sampleInvoiceCreateBody : InvoiceCreateBody :=
  { label := none, usdRate := some 1500,
    invoice := { sampleInvoice with invoiceNumber := "TOTALLY-BOGUS" } }

/-- Witness for C10: the caller-supplied number is overwritten; the stored
payload of the created row carries `INV-0001`. -/
theorem invoiceNumber_snapshot_claim_witness :
    ((invoiceCreate [] "u1" sampleInvoiceCreateBody "i1" 0).2.2.1).invoiceNumber =
      formatInvoiceNumber
        ((invoiceCreate [] "u1" sampleInvoiceCreateBody "i1" 0).2.1).invoiceNumber ∧
    formatInvoiceNumber
      ((invoiceCreate [] "u1" sampleInvoiceCreateBody "i1" 0).2.1).invoiceNumber =
      "INV-0001" :=
  ⟨(invoiceNumber_snapshot_claim.1 [] "u1" sampleInvoiceCreateBody "i1" 0).2, rfl⟩

/-- Row committed by a concurrent transaction, used to exhibit the race. -/
def raceReceiptRow : ReceiptRec :=
  { id := "r-race", createdAt := 0, label := none,
    payload := Stored.corrupt "", receiptNumber := 1, userId := "u1" }

/-- Counterexample for C6: when a concurrent commit takes the same number,
the create surfaces the uniqueness violation after a SINGLE execution of
the read-max-then-insert step — no retry happens before the failure
reaches the caller. -/
theorem create_conflict_counterexample :
    (receiptCreateRaced [] "u1" sampleReceiptBody "r1" 0
      (fun s => raceReceiptRow :: s)).attempts = 1 ∧
    (receiptCreateRaced [] "u1" sampleReceiptBody "r1" 0
      (fun s => raceReceiptRow :: s)).result =
      Except.error ApiErr.uniqueViolation :=
  ⟨rfl, rfl⟩

/-- C6 (amended): receipt and invoice creation execute the
read-max-then-insert step exactly once — there is no retry loop — and the
result is the uniqueness-violation error precisely when the concurrently
committed rows collide with the computed next number; that first failure
is surfaced directly to the caller. -/
theorem create_no_retry_claim :
    (∀ (s : List ReceiptRec) (u : String) (b : ReceiptCreateBody) (i : String)
      (t : Nat) (interf : List ReceiptRec → List ReceiptRec),
      (receiptCreateRaced s u b i t interf).attempts = 1 ∧
      ((receiptCreateRaced s u b i t interf).result =
          Except.error ApiErr.uniqueViolation ↔
        hasReceiptCollision (interf s) u ((maxReceiptNumber s u).getD 0 + 1) = true)) ∧
    (∀ (s : List InvoiceRec) (u : String) (b : InvoiceCreateBody) (i : String)
      (t : Nat) (interf : List InvoiceRec → List InvoiceRec),
      (invoiceCreateRaced s u b i t interf).attempts = 1 ∧
      ((invoiceCreateRaced s u b i t interf).result =
          Except.error ApiErr.uniqueViolation ↔
        hasInvoiceCollision (interf s) u ((maxInvoiceNumber s u).getD 0 + 1) = true)) := by
  constructor
  · intro s u b i t interf
    refine ⟨rfl, ?_⟩
    by_cases h : hasReceiptCollision (interf s) u ((maxReceiptNumber s u).getD 0 + 1) = true
    · simp [receiptCreateRaced, insertReceiptChecked, h, Except.map]
    · simp [receiptCreateRaced, insertReceiptChecked, h, Except.map]
  · intro s u b i t interf
    refine ⟨rfl, ?_⟩
    by_cases h : hasInvoiceCollision (interf s) u ((maxInvoiceNumber s u).getD 0 + 1) = true
    · simp [invoiceCreateRaced, insertInvoiceChecked, h, Except.map]
    · simp [invoiceCreateRaced, insertInvoiceChecked, h, Except.map]

/-- Witness for C6 (amended): an interference-free create makes one attempt
and does not report a conflict. -/
theorem create_no_retry_claim_witness :
    (receiptCreateRaced [] "u1" sampleReceiptBody "r1" 0 id).attempts = 1 ∧
    ((receiptCreateRaced [] "u1" sampleReceiptBody "r1" 0 id).result =
        Except.error ApiErr.uniqueViolation ↔
      hasReceiptCollision [] "u1" ((maxReceiptNumber [] "u1").getD 0 + 1) = true) :=
  create_no_retry_claim.1 [] "u1" sampleReceiptBody "r1" 0 id

/-- Invoice row whose stored text columns do not decode. -/
def corruptInvoiceRow : InvoiceRec :=
  { id := "i1", createdAt := 0, label := some "broken", usdRate := none,
    payload := Stored.corrupt "oops", totals := Stored.corrupt "oops2",
    invoiceNumber := 1, userId := "u1" }

/-- Counterexample for C8: reading a corrupt invoice by id FAILS with the
decode error (the unguarded `JSON.parse` throws and the request errors out)
instead of returning the raw stored text. -/
theorem decode_fallback_counterexample :
    invoiceGetOne [corruptInvoiceRow] "u1" "i1" =
      Except.error ApiErr.decodeFailure := rfl

/-- C8 (amended): the receipt list, receipt get-by-id and invoice list
reads tolerate a decode failure by returning the raw stored text in place
of the decoded structure, without failing; the invoice get-by-id read
instead propagates the decode failure as an error. -/
theorem decode_fallback_claim :
    (∀ (s : List ReceiptRec) (u id : String) (rec : ReceiptRec) (raw : String),
      findReceipt s u id = some rec → rec.payload = Stored.corrupt raw →
      receiptGetOne s u id = Except.ok (mkReceiptResp rec) ∧
        (mkReceiptResp rec).payload = Sum.inr raw) ∧
    (∀ (s : List ReceiptRec) (u q : String) (resp : ReceiptResp),
      resp ∈ receiptList s u q →
      ∃ rec : ReceiptRec, rec ∈ s ∧ resp = mkReceiptResp rec) ∧
    (∀ (rec : ReceiptRec) (raw : String), rec.payload = Stored.corrupt raw →
      (mkReceiptResp rec).payload = Sum.inr raw) ∧
    (∀ (s : List InvoiceRec) (u q : String) (resp : InvoiceResp),
      resp ∈ invoiceList s u q →
      ∃ rec : InvoiceRec, rec ∈ s ∧ resp = mkInvoiceResp rec) ∧
    (∀ (rec : InvoiceRec) (raw : String), rec.payload = Stored.corrupt raw →
      (mkInvoiceResp rec).payload = Sum.inr raw) ∧
    (∀ (rec : InvoiceRec) (raw : String), rec.totals = Stored.corrupt raw →
      (mkInvoiceResp rec).totals = Sum.inr raw) ∧
    (∀ (s : List InvoiceRec) (u id : String) (rec : InvoiceRec),
      findInvoice s u id = some rec → decodeStored rec.payload = none →
      invoiceGetOne s u id = Except.error ApiErr.decodeFailure) ∧
    (∀ (s : List InvoiceRec) (u id : String) (rec : InvoiceRec),
      findInvoice s u id = some rec → decodeStored rec.totals = none →
      invoiceGetOne s u id = Except.error ApiErr.decodeFailure) := by
  refine ⟨?_, ?_, ?_, ?_, ?_, ?_, ?_, ?_⟩
  · intro s u id rec raw hfind hraw
    constructor
    · unfold receiptGetOne
      rw [hfind]
    · simp [mkReceiptResp, hraw, decodeOrRaw]
  · intro s u q resp hmem
    simp only [receiptList, List.mem_map] at hmem
    obtain ⟨rec, hrec, hresp⟩ := hmem
    refine ⟨rec, ?_, hresp.symm⟩
    by_cases hq : q.toLower = ""
    · rw [if_pos hq] at hrec
      exact (List.mem_filter.mp (List.mem_mergeSort.mp hrec)).1
    · rw [if_neg hq] at hrec
      exact (List.mem_filter.mp
        (List.mem_mergeSort.mp (List.mem_filter.mp hrec).1)).1
  · intro rec raw hraw
    simp [mkReceiptResp, hraw, decodeOrRaw]
  · intro s u q resp hmem
    simp only [invoiceList, List.mem_map] at hmem
    obtain ⟨rec, hrec, hresp⟩ := hmem
    refine ⟨rec, ?_, hresp.symm⟩
    by_cases hq : q.toLower = ""
    · rw [if_pos hq] at hrec
      exact (List.mem_filter.mp (List.mem_mergeSort.mp hrec)).1
    · rw [if_neg hq] at hrec
      exact (List.mem_filter.mp
        (List.mem_mergeSort.mp (List.mem_filter.mp hrec).1)).1
  · intro rec raw hraw
    simp [mkInvoiceResp, hraw, decodeOrRaw]
  · intro rec raw hraw
    simp [mkInvoiceResp, hraw, decodeOrRaw]
  · intro s u id rec hfind hdec
    unfold invoiceGetOne
    simp only [hfind, hdec]
  · intro s u id rec hfind hdec
    unfold invoiceGetOne
    simp only [hfind, hdec]
    cases hp : decodeStored rec.payload <;> simp [hp, hdec]

/-- Receipt row whose stored payload does not decode. -/
def corruptReceiptRow : ReceiptRec :=
  { id := "r9", createdAt := 0, label := some "broken",
    payload := Stored.corrupt "not-json", receiptNumber := 9, userId := "u1" }

/-- Witness for C8 (amended): reading the corrupt receipt by id succeeds
and hands back the raw stored text. -/
theorem decode_fallback_claim_witness :
    receiptGetOne [corruptReceiptRow] "u1" "r9" =
      Except.ok (mkReceiptResp corruptReceiptRow) ∧
    (mkReceiptResp corruptReceiptRow).payload = Sum.inr "not-json" :=
  decode_fallback_claim.1 [corruptReceiptRow] "u1" "r9" corruptReceiptRow
    "not-json" rfl rfl

end MarketingCalc
